import Mathlib

/-!
Verification development for the EGL preview pipeline
(`src/preview/egl_preview.cpp`): a shallow embedding of the buffer
registry, the presentation loop with its one-frame-delayed
release protocol, the colour-space mapping, the DMA-BUF plane layout and
the overlay surface, together with theorems settling the specification's
claims about them.

Modelling conventions:
* the DMABUF file descriptor (the frame handle) is an `Int`, since the
  source uses `fd == -1` as the "empty slot / default-constructed entry"
  sentinel (`Buffer() : fd(-1)`, `last_fd_(-1)`);
* `std::map<int, Buffer> buffers_` becomes an association list with
  `lookupBuffer` / `insertBuffer`;
* the external calls `eglCreateImageKHR` and `eglSwapBuffers` are modelled
  by oracles: an `importOk` function deciding whether the zero-copy import
  of a given fd with a given attribute list succeeds, and a `swapOk`
  boolean giving the result of the swap (which the source discards,
  `EGLBoolean success [[maybe_unused]]`);
* GPU texture names are drawn from a monotone counter `next_texture`
  (modelling `glGenTextures` returning fresh names);
* `float` arithmetic in `gl_setup` is modelled over `ℚ` (the computation
  is a pure ratio calculation);
* `static_cast<EGLint>` on unsigned expressions is modelled by `toEGLint`,
  reduction into the 32-bit signed range.
-/

namespace Egl

/-- Colour spaces, after `libcamera::ColorSpace`'s predefined values.
`std::optional<libcamera::ColorSpace>` is modelled as `Option ColorSpace`,
with `none` for an unset ("unspecified") colour space. -/
inductive ColorSpace where
  | Raw
  | Srgb
  | Sycc
  | Smpte170m
  | Rec709
  | Rec2020
deriving DecidableEq, Repr

/-- `StreamInfo`: width, height, row stride in bytes, optional colour space. -/
structure StreamInfo where
  width : Nat
  height : Nat
  stride : Nat
  colour_space : Option ColorSpace
deriving DecidableEq, Repr

/-- `EglPreview::Buffer`: the default constructor sets `fd` to `-1`
(the other fields are uninitialized in the source and never read while
`fd == -1`; they default to zeros here). -/
structure Buffer where
  fd : Int := -1
  size : Nat := 0
  info : StreamInfo := { width := 0, height := 0, stride := 0, colour_space := none }
  texture : Nat := 0
deriving DecidableEq, Repr

/-- The overlay texture: current allocated dimensions plus its pixel
content (`none` = allocated but unspecified, as after
`glTexImage2D(..., nullptr)`). -/
structure OverlayTex where
  w : Nat
  h : Nat
  content : Option (List Nat)
deriving DecidableEq, Repr

/-- The mutable state of an `EglPreview` instance (the fields the core
pipeline reads and writes). `width`/`height` are the preview-window
dimensions fixed by `makeWindow`. The vertex scale factors that
`gl_setup` bakes into the vertex program and `verts_` are a pure
function of the frame and window dimensions; they are modelled by
`gl_setup_factors` / `gl_setup_verts` below rather than stored here. -/
structure EglState where
  buffers : List (Int × Buffer)
  last_fd : Int
  first_time : Bool
  width : Nat
  height : Nat
  overlay_present : Bool
  overlay_tex : OverlayTex
  next_texture : Nat
deriving DecidableEq, Repr

/-- Association-list lookup for the fd-to-Buffer registry. -/
def lookupBuffer : List (Int × Buffer) → Int → Option Buffer
  | [], _ => none
  | (k, b) :: rest, fd => if k = fd then some b else lookupBuffer rest fd

/-- Association-list insert-or-update for the fd-to-Buffer registry. -/
def insertBuffer : List (Int × Buffer) → Int → Buffer → List (Int × Buffer)
  | [], fd, b => [(fd, b)]
  | (k, b0) :: rest, fd, b =>
      if k = fd then (k, b) :: rest else (k, b0) :: insertBuffer rest fd b

/-! EGL and DRM constants used by the import attribute list. -/

def EGL_HEIGHT : Nat := 0x3056
def EGL_WIDTH : Nat := 0x3057
def EGL_LINUX_DRM_FOURCC_EXT : Nat := 0x3271
def EGL_DMA_BUF_PLANE0_FD_EXT : Nat := 0x3272
def EGL_DMA_BUF_PLANE0_OFFSET_EXT : Nat := 0x3273
def EGL_DMA_BUF_PLANE0_PITCH_EXT : Nat := 0x3274
def EGL_DMA_BUF_PLANE1_FD_EXT : Nat := 0x3275
def EGL_DMA_BUF_PLANE1_OFFSET_EXT : Nat := 0x3276
def EGL_DMA_BUF_PLANE1_PITCH_EXT : Nat := 0x3277
def EGL_DMA_BUF_PLANE2_FD_EXT : Nat := 0x3278
def EGL_DMA_BUF_PLANE2_OFFSET_EXT : Nat := 0x3279
def EGL_DMA_BUF_PLANE2_PITCH_EXT : Nat := 0x327A
def EGL_YUV_COLOR_SPACE_HINT_EXT : Nat := 0x327B
def EGL_SAMPLE_RANGE_HINT_EXT : Nat := 0x327C
def EGL_ITU_REC601_EXT : Nat := 0x327F
def EGL_ITU_REC709_EXT : Nat := 0x3280
def EGL_YUV_FULL_RANGE_EXT : Nat := 0x3282
def EGL_YUV_NARROW_RANGE_EXT : Nat := 0x3283
def DRM_FORMAT_YUV420 : Nat := 0x32315559

/-- `static_cast<EGLint>` applied to an unsigned value: reduce modulo
2^32 into the signed 32-bit range. -/
def toEGLint (n : Nat) : Int :=
  if n % 2 ^ 32 < 2 ^ 31 then ((n % 2 ^ 32 : Nat) : Int)
  else ((n % 2 ^ 32 : Nat) : Int) - 2 ^ 32

/-- String rendering of an optional colour space, after
`libcamera::ColorSpace::toString`. -/
def colourSpaceString : Option ColorSpace → String
  | none => "Unset"
  | some ColorSpace.Raw => "RAW"
  | some ColorSpace.Srgb => "sRGB"
  | some ColorSpace.Sycc => "sYCC"
  | some ColorSpace.Smpte170m => "SMPTE170M"
  | some ColorSpace.Rec709 => "Rec709"
  | some ColorSpace.Rec2020 => "Rec2020"

/-- `get_colour_space_info`: starts from (REC601, NARROW); `Sycc` widens
the range to FULL, `Smpte170m` keeps the defaults, `Rec709` switches the
encoding to REC709, and anything else keeps the defaults but logs a
warning. Returns (encoding, range, log lines emitted). -/
def get_colour_space_info (cs : Option ColorSpace) : Nat × Nat × List String :=
  let encoding := EGL_ITU_REC601_EXT
  let range := EGL_YUV_NARROW_RANGE_EXT
  if cs = some ColorSpace.Sycc then
    (encoding, EGL_YUV_FULL_RANGE_EXT, [])
  else if cs = some ColorSpace.Smpte170m then
    (encoding, range, [])
  else if cs = some ColorSpace.Rec709 then
    (EGL_ITU_REC709_EXT, range, [])
  else
    (encoding, range, ["EglPreview: unexpected colour space " ++ colourSpaceString cs])

/-- The `EGLint attribs[]` array passed to `eglCreateImageKHR` in
`EglPreview::makeBuffer`, as a key-value list. -/
def makeBufferAttribs (fd : Int) (info : StreamInfo) (encoding range : Nat) :
    List (Nat × Int) :=
  [ (EGL_WIDTH, toEGLint info.width),
    (EGL_HEIGHT, toEGLint info.height),
    (EGL_LINUX_DRM_FOURCC_EXT, (DRM_FORMAT_YUV420 : Int)),
    (EGL_DMA_BUF_PLANE0_FD_EXT, fd),
    (EGL_DMA_BUF_PLANE0_OFFSET_EXT, 0),
    (EGL_DMA_BUF_PLANE0_PITCH_EXT, toEGLint info.stride),
    (EGL_DMA_BUF_PLANE1_FD_EXT, fd),
    (EGL_DMA_BUF_PLANE1_OFFSET_EXT, toEGLint (info.stride * info.height)),
    (EGL_DMA_BUF_PLANE1_PITCH_EXT, toEGLint (info.stride / 2)),
    (EGL_DMA_BUF_PLANE2_FD_EXT, fd),
    (EGL_DMA_BUF_PLANE2_OFFSET_EXT,
      toEGLint (info.stride * info.height + (info.stride / 2) * (info.height / 2))),
    (EGL_DMA_BUF_PLANE2_PITCH_EXT, toEGLint (info.stride / 2)),
    (EGL_YUV_COLOR_SPACE_HINT_EXT, (encoding : Int)),
    (EGL_SAMPLE_RANGE_HINT_EXT, (range : Int)) ]

/-- First value bound to a key in an attribute list. -/
def attribValue : List (Nat × Int) → Nat → Option Int
  | [], _ => none
  | (k, v) :: rest, key => if k = key then some v else attribValue rest key

/-- The attribute list `makeBuffer` hands to the import call for a given
fd and geometry (the encoding/range pair comes from
`get_colour_space_info`). -/
def importAttribs (fd : Int) (info : StreamInfo) : List (Nat × Int) :=
  let csi := get_colour_space_info info.colour_space
  makeBufferAttribs fd info csi.1 csi.2.1

/-- The pure core of `EglPreview::gl_setup`: from frame dimensions and
window dimensions, the two vertex scale factors
`w_factor = (width/window_width) / m` and
`h_factor = (height/window_height) / m` with
`m = max (width/window_width) (height/window_height)`. -/
def gl_setup_factors (width height window_width window_height : ℚ) : ℚ × ℚ :=
  let w_factor := width / window_width
  let h_factor := height / window_height
  let max_dimension := max w_factor h_factor
  (w_factor / max_dimension, h_factor / max_dimension)

/-- The video quad vertices `verts_` written by `gl_setup`:
`{ -w, -h, w, -h, w, h, -w, h }`. -/
def gl_setup_verts (w_factor h_factor : ℚ) : List (ℚ × ℚ) :=
  [(-w_factor, -h_factor), (w_factor, -h_factor),
   (w_factor, h_factor), (-w_factor, h_factor)]

/-- `EglPreview::setup_overlay`: allocates the overlay texture at
`width_ / 4` by `height_ / 4` (the preview-window dimensions, integer
division) with unspecified content. -/
def setup_overlay (s : EglState) : EglState :=
  { s with overlay_tex :=
      { w := s.width / 4, h := s.height / 4, content := none } }

/-- The `first_time_` block at the top of `EglPreview::makeBuffer`:
runs `gl_setup` (whose baked-in scale factors are the pure
`gl_setup_factors` of the frame and window dimensions) and
`setup_overlay`, then clears `first_time_`. -/
def firstTimeSetup (info : StreamInfo) (s : EglState) : EglState :=
  if s.first_time then setup_overlay { s with first_time := false } else s

/-- `EglPreview::makeBuffer`: one-time GL setup if needed, colour-space
mapping, build the DMA-BUF attribute list, attempt the zero-copy import
(`eglCreateImageKHR`, modelled by the `importOk` oracle); on failure
throw `"failed to import fd <fd>"`, on success bind a fresh texture and
return the filled registry entry plus any log lines. -/
def makeBuffer (importOk : Int → List (Nat × Int) → Bool) (fd : Int) (size : Nat)
    (info : StreamInfo) (s : EglState) :
    Except String (EglState × Buffer × List String) :=
  let s1 := firstTimeSetup info s
  let csi := get_colour_space_info info.colour_space
  let attribs := makeBufferAttribs fd info csi.1 csi.2.1
  if importOk fd attribs then
    let buffer : Buffer := { fd := fd, size := size, info := info, texture := s1.next_texture }
    Except.ok ({ s1 with next_texture := s1.next_texture + 1 }, buffer, csi.2.2)
  else
    Except.error ("failed to import fd " ++ toString fd)

/-- The import path of `EglPreview::Show`: run `makeBuffer` on the state
`s0` (in which the map slot for `fd` already exists), store the filled
entry, swap (result discarded), then run the release protocol. The first
component of the result tuple is the new state, the second the handle
reported released (if any), the third the log lines, the fourth whether
an import was performed. -/
def showImport (importOk : Int → List (Nat × Int) → Bool) (swapOk : Bool)
    (s0 : EglState) (fd : Int) (size : Nat) (info : StreamInfo) :
    Except String (EglState × Option Int × List String × Bool) :=
  match makeBuffer importOk fd size info s0 with
  | Except.error e => Except.error e
  | Except.ok (s1, buf, logs) =>
    let _success := swapOk
    let released := if 0 ≤ s1.last_fd then some s1.last_fd else none
    Except.ok ({ s1 with buffers := insertBuffer s1.buffers fd buf, last_fd := fd },
      released, logs, true)

/-- `EglPreview::Show`: `buffers_[fd]` inserts a default entry if the fd
is unseen; if the entry is still default (`fd == -1`) it is filled by
`makeBuffer`; then draw, swap (`EGLBoolean success [[maybe_unused]]` -
the result is discarded), report the previously shown fd as released if
the slot is non-empty (`last_fd_ >= 0`), and store the just-shown fd in
the slot. -/
def Show (importOk : Int → List (Nat × Int) → Bool) (swapOk : Bool) (s : EglState)
    (fd : Int) (size : Nat) (info : StreamInfo) :
    Except String (EglState × Option Int × List String × Bool) :=
  match lookupBuffer s.buffers fd with
  | none => showImport importOk swapOk { s with buffers := insertBuffer s.buffers fd {} }
      fd size info
  | some buffer =>
    if buffer.fd = -1 then
      showImport importOk swapOk s fd size info
    else
      let _success := swapOk
      let released := if 0 ≤ s.last_fd then some s.last_fd else none
      Except.ok ({ s with last_fd := fd }, released, ([] : List String), false)

/-- `EglPreview::Reset`: delete every registry texture, clear the
registry, empty the pending-release slot (`last_fd_ = -1`), release the
GL context, and mark the pipeline uninitialized (`first_time_ = true`).
The second component is the list of release reports emitted by the call:
none are. -/
def Reset (s : EglState) : EglState × List (Option Int) :=
  ({ s with buffers := [], last_fd := -1, first_time := true }, [])

/-- `EglPreview::SetOverlay`: a null buffer only clears the presence
flag (the width/height arguments are not read); a non-null buffer
respecifies the overlay texture's dimensions and full pixel content via
`glTexImage2D` and sets the presence flag. -/
def SetOverlay (s : EglState) (buf : Option (List Nat)) (width height : Nat) : EglState :=
  match buf with
  | none => { s with overlay_present := false }
  | some b =>
    { s with overlay_tex := { w := width, h := height, content := some b },
             overlay_present := true }

/-- Run a sequence of `Show` calls, collecting the release report of each
call (one slot per call, `none` when that call released nothing). -/
def runShows (importOk : Int → List (Nat × Int) → Bool) (swapOk : Bool)
    (s : EglState) (fds : List Int) (size : Nat) (info : StreamInfo) :
    Except String (EglState × List (Option Int)) :=
  match fds with
  | [] => Except.ok (s, [])
  | fd :: rest =>
    match Show importOk swapOk s fd size info with
    | Except.error e => Except.error e
    | Except.ok (s1, rel, _, _) =>
      match runShows importOk swapOk s1 rest size info with
      | Except.error e => Except.error e
      | Except.ok (s2, rels) => Except.ok (s2, rel :: rels)

/-- The state of a freshly constructed `EglPreview` with the given
window dimensions: empty registry, empty pending-release slot
(`last_fd_(-1)`), `first_time_(true)`, no overlay. -/
def initState (window_width window_height : Nat) : EglState :=
  { buffers := [], last_fd := -1, first_time := true,
    width := window_width, height := window_height,
    overlay_present := false,
    overlay_tex := { w := 0, h := 0, content := none },
    next_texture := 1 }

/-- Whether a `Show` of `fd` in state `s` will call `makeBuffer` (the
source condition: the `buffers_[fd]` slot is absent or still
default-constructed). -/
def needsImport (s : EglState) (fd : Int) : Prop :=
  ((lookupBuffer s.buffers fd).getD {}).fd = -1

/-- A 640 by 480 SMPTE 170M stream with a 640-byte stride, used as a
concrete geometry. -/
def info640 : StreamInfo :=
  { width := 640, height := 480, stride := 640,
    colour_space := some ColorSpace.Smpte170m }

/-- The registry state after a single successful first `Show` of `fd`
(with payload size 100 and geometry `info640`) starting from
`initState 1024 768`: one entry bound to texture 1, the slot holding
`fd`, GL set up, and the overlay texture allocated at 256 by 192. -/
def afterOne (fd : Int) : EglState :=
  { buffers := [(fd, { fd := fd, size := 100, info := info640, texture := 1 })],
    last_fd := fd, first_time := false, width := 1024, height := 768,
    overlay_present := false,
    overlay_tex := { w := 256, h := 192, content := none },
    next_texture := 2 }

/-- The state after showing fds 1, 2, 3 in order from `initState 1024 768`. -/
def afterOneTwoThree : EglState :=
  { buffers := [(1, { fd := 1, size := 100, info := info640, texture := 1 }),
                (2, { fd := 2, size := 100, info := info640, texture := 2 }),
                (3, { fd := 3, size := 100, info := info640, texture := 3 })],
    last_fd := 3, first_time := false, width := 1024, height := 768,
    overlay_present := false,
    overlay_tex := { w := 256, h := 192, content := none },
    next_texture := 4 }

/-- A state with one frame (fd 2) pending in the release slot and the
registry still empty, as after construction with an externally recorded
pending handle. -/
def pendingTwoState : EglState := { initState 1024 768 with last_fd := 2 }

/-! ## Helper lemmas about the registry and the pipeline operations -/

theorem lookupBuffer_insertBuffer_self (bs : List (Int × Buffer)) (fd : Int) (b : Buffer) :
    lookupBuffer (insertBuffer bs fd b) fd = some b := by
  induction bs with
  | nil => simp [insertBuffer, lookupBuffer]
  | cons p rest ih =>
    obtain ⟨k, b0⟩ := p
    by_cases h : k = fd <;> simp [insertBuffer, lookupBuffer, h, ih]

theorem firstTimeSetup_last_fd (info : StreamInfo) (s : EglState) :
    (firstTimeSetup info s).last_fd = s.last_fd := by
  unfold firstTimeSetup setup_overlay
  split <;> rfl

theorem firstTimeSetup_buffers (info : StreamInfo) (s : EglState) :
    (firstTimeSetup info s).buffers = s.buffers := by
  unfold firstTimeSetup setup_overlay
  split <;> rfl

theorem firstTimeSetup_next_texture (info : StreamInfo) (s : EglState) :
    (firstTimeSetup info s).next_texture = s.next_texture := by
  unfold firstTimeSetup setup_overlay
  split <;> rfl

theorem firstTimeSetup_overlay_of_first (info : StreamInfo) (s : EglState)
    (h : s.first_time = true) :
    (firstTimeSetup info s).overlay_tex =
      { w := s.width / 4, h := s.height / 4, content := none } := by
  unfold firstTimeSetup setup_overlay
  rw [if_pos h]

theorem makeBuffer_ok_of {importOk : Int → List (Nat × Int) → Bool} {fd : Int}
    {info : StreamInfo} (size : Nat) (s : EglState)
    (h : importOk fd (importAttribs fd info) = true) :
    makeBuffer importOk fd size info s =
      Except.ok
        ({ firstTimeSetup info s with
             next_texture := (firstTimeSetup info s).next_texture + 1 },
         { fd := fd, size := size, info := info,
           texture := (firstTimeSetup info s).next_texture },
         (get_colour_space_info info.colour_space).2.2) := by
  unfold makeBuffer
  simp only [importAttribs] at h
  simp [h]

theorem makeBuffer_error_of {importOk : Int → List (Nat × Int) → Bool} {fd : Int}
    {info : StreamInfo} (size : Nat) (s : EglState)
    (h : importOk fd (importAttribs fd info) = false) :
    makeBuffer importOk fd size info s =
      Except.error ("failed to import fd " ++ toString fd) := by
  unfold makeBuffer
  simp only [importAttribs] at h
  simp [h]

theorem showImport_ok {importOk : Int → List (Nat × Int) → Bool} {fd : Int}
    {info : StreamInfo} (swapOk : Bool) (s0 : EglState) (size : Nat)
    (h : importOk fd (importAttribs fd info) = true) :
    showImport importOk swapOk s0 fd size info =
      Except.ok
        ({ firstTimeSetup info s0 with
             next_texture := (firstTimeSetup info s0).next_texture + 1,
             buffers := insertBuffer (firstTimeSetup info s0).buffers fd
               { fd := fd, size := size, info := info,
                 texture := (firstTimeSetup info s0).next_texture },
             last_fd := fd },
         (if 0 ≤ s0.last_fd then some s0.last_fd else none),
         (get_colour_space_info info.colour_space).2.2, true) := by
  unfold showImport
  rw [makeBuffer_ok_of size s0 h]
  simp [firstTimeSetup_last_fd]

theorem showImport_error {importOk : Int → List (Nat × Int) → Bool} {fd : Int}
    {info : StreamInfo} (swapOk : Bool) (s0 : EglState) (size : Nat)
    (h : importOk fd (importAttribs fd info) = false) :
    showImport importOk swapOk s0 fd size info =
      Except.error ("failed to import fd " ++ toString fd) := by
  unfold showImport
  rw [makeBuffer_error_of size s0 h]

theorem Show_new {s : EglState} {fd : Int} (h : lookupBuffer s.buffers fd = none)
    (importOk : Int → List (Nat × Int) → Bool) (swapOk : Bool) (size : Nat)
    (info : StreamInfo) :
    Show importOk swapOk s fd size info =
      showImport importOk swapOk { s with buffers := insertBuffer s.buffers fd {} }
        fd size info := by
  unfold Show
  rw [h]

theorem Show_dead {s : EglState} {fd : Int} {b : Buffer}
    (hb : lookupBuffer s.buffers fd = some b) (hbfd : b.fd = -1)
    (importOk : Int → List (Nat × Int) → Bool) (swapOk : Bool) (size : Nat)
    (info : StreamInfo) :
    Show importOk swapOk s fd size info = showImport importOk swapOk s fd size info := by
  unfold Show
  rw [hb]
  simp [hbfd]

theorem Show_cached {s : EglState} {fd : Int} {b : Buffer}
    (hb : lookupBuffer s.buffers fd = some b) (hbfd : ¬b.fd = -1)
    (importOk : Int → List (Nat × Int) → Bool) (swapOk : Bool) (size : Nat)
    (info : StreamInfo) :
    Show importOk swapOk s fd size info =
      Except.ok ({ s with last_fd := fd },
        (if 0 ≤ s.last_fd then some s.last_fd else none), ([] : List String), false) := by
  unfold Show
  rw [hb]
  simp [hbfd]

theorem Show_ok_spec {importOk : Int → List (Nat × Int) → Bool} {swapOk : Bool}
    {s : EglState} {fd : Int} {size : Nat} {info : StreamInfo}
    {out : EglState × Option Int × List String × Bool}
    (h : Show importOk swapOk s fd size info = Except.ok out) :
    out.1.last_fd = fd ∧
    out.2.1 = (if 0 ≤ s.last_fd then some s.last_fd else none) := by
  rcases heq : lookupBuffer s.buffers fd with _ | b
  · rw [Show_new heq importOk swapOk size info] at h
    by_cases hi : importOk fd (importAttribs fd info) = true
    · rw [showImport_ok swapOk _ size hi] at h
      injection h with h
      subst h
      exact ⟨rfl, rfl⟩
    · rw [showImport_error swapOk _ size (by simpa using hi)] at h
      cases h
  · by_cases hbfd : b.fd = -1
    · rw [Show_dead heq hbfd importOk swapOk size info] at h
      by_cases hi : importOk fd (importAttribs fd info) = true
      · rw [showImport_ok swapOk _ size hi] at h
        injection h with h
        subst h
        exact ⟨rfl, rfl⟩
      · rw [showImport_error swapOk _ size (by simpa using hi)] at h
        cases h
    · rw [Show_cached heq hbfd importOk swapOk size info] at h
      injection h with h
      subst h
      exact ⟨rfl, rfl⟩

theorem Show_ok_entry {importOk : Int → List (Nat × Int) → Bool} {swapOk : Bool}
    {s : EglState} {fd : Int} {size : Nat} {info : StreamInfo}
    {out : EglState × Option Int × List String × Bool}
    (hfd : 0 ≤ fd)
    (h : Show importOk swapOk s fd size info = Except.ok out) :
    ∃ b, lookupBuffer out.1.buffers fd = some b ∧ ¬b.fd = -1 := by
  have hne : fd ≠ -1 := by omega
  rcases heq : lookupBuffer s.buffers fd with _ | b
  · rw [Show_new heq importOk swapOk size info] at h
    by_cases hi : importOk fd (importAttribs fd info) = true
    · rw [showImport_ok swapOk _ size hi] at h
      injection h with h
      subst h
      exact ⟨_, lookupBuffer_insertBuffer_self _ _ _, by simpa using hne⟩
    · rw [showImport_error swapOk _ size (by simpa using hi)] at h
      cases h
  · by_cases hbfd : b.fd = -1
    · rw [Show_dead heq hbfd importOk swapOk size info] at h
      by_cases hi : importOk fd (importAttribs fd info) = true
      · rw [showImport_ok swapOk _ size hi] at h
        injection h with h
        subst h
        exact ⟨_, lookupBuffer_insertBuffer_self _ _ _, by simpa using hne⟩
      · rw [showImport_error swapOk _ size (by simpa using hi)] at h
        cases h
    · rw [Show_cached heq hbfd importOk swapOk size info] at h
      injection h with h
      subst h
      exact ⟨b, heq, hbfd⟩

theorem runShows_trace (importOk : Int → List (Nat × Int) → Bool) (swapOk : Bool)
    (size : Nat) (info : StreamInfo) :
    ∀ (fds : List Int) (s s2 : EglState) (rels : List (Option Int)),
      (∀ fd ∈ fds, 0 ≤ fd) →
      runShows importOk swapOk s fds size info = Except.ok (s2, rels) →
      rels = (match fds with
              | [] => []
              | _ :: _ => (if 0 ≤ s.last_fd then some s.last_fd else none)
                  :: fds.dropLast.map some) := by
  intro fds
  induction fds with
  | nil =>
    intro s s2 rels _ h
    unfold runShows at h
    injection h with h
    simpa using congrArg Prod.snd h
  | cons fd rest ih =>
    intro s s2 rels hpos h
    unfold runShows at h
    rcases hs : Show importOk swapOk s fd size info with e | ⟨s1, rel, logs, imp⟩
    · rw [hs] at h
      cases h
    · rw [hs] at h
      dsimp only at h
      rcases hr : runShows importOk swapOk s1 rest size info with e | ⟨s3, rels3⟩
      · rw [hr] at h
        cases h
      · rw [hr] at h
        injection h with h
        have hrels : rels = rel :: rels3 := (congrArg Prod.snd h).symm
        obtain ⟨hs1, hs2⟩ := Show_ok_spec hs
        simp only at hs1 hs2
        have hrest := ih s1 s3 rels3 (fun x hx => hpos x (List.mem_cons_of_mem _ hx)) hr
        subst hrels
        cases rest with
        | nil =>
          rw [hrest]
          simp [hs2, List.dropLast]
        | cons fd2 rest2 =>
          have hfd0 : 0 ≤ fd := hpos fd (List.mem_cons_self _ _)
          rw [hrest]
          dsimp only
          rw [hs1, if_pos hfd0, hs2]
          rfl

/-! ## Claim theorems -/

/-- Claim C1: one-frame-delayed release protocol. For every sequence of
successful `Show` calls `present(h1), ..., present(hn)` with `n ≥ 2`,
valid (non-negative) fds and no `Reset` in between, starting with an
empty pending-release slot, the per-call release reports are exactly
`[none, some h1, some h2, ..., some h_{n-1}]`: the release for `h_i`
fires exactly once, during (and only during) the call presenting
`h_{i+1}`; `h_n` is not released within the window; no call reports the
handle it itself presents (the report of call `i+1` is `h_i`, by
presentation order, even when `h_{i+1} = h_i`). -/
theorem show_release_protocol (importOk : Int → List (Nat × Int) → Bool) (swapOk : Bool)
    (s s2 : EglState) (fds : List Int) (size : Nat) (info : StreamInfo)
    (rels : List (Option Int))
    (hstart : s.last_fd = -1)
    (hpos : ∀ fd ∈ fds, 0 ≤ fd)
    (hlen : 2 ≤ fds.length)
    (hok : runShows importOk swapOk s fds size info = Except.ok (s2, rels)) :
    rels = none :: fds.dropLast.map some := by
  have htr := runShows_trace importOk swapOk size info fds s s2 rels hpos hok
  cases fds with
  | nil => simp at hlen
  | cons a l =>
    rw [htr, hstart]
    norm_num

/-- Witness for C1: showing fds 1, 2, 3 from the initial state releases
nothing on the first call, then 1, then 2 - and 3 is never released. -/
theorem show_release_protocol_witness :
    ([none, some 1, some 2] : List (Option Int)) =
      none :: ([1, 2, 3] : List Int).dropLast.map some :=
  show_release_protocol (fun _ _ => true) true (initState 1024 768) afterOneTwoThree
    [1, 2, 3] 100 info640 [none, some 1, some 2] rfl (by decide) (by decide) (by rfl)

/-- Claim C2: registry resolution is idempotent. After a successful
`Show` of a valid fd, a second `Show` of the same fd - with any oracle,
any swap outcome and any (possibly different) size and geometry -
returns the very same state (same registry entries, hence the same
texture id for the fd; the slot already holds the fd), performs
no import (last component `false`, the result not depending on the
second oracle at all) and no re-validation (the differing `size2`,
`info2` are never consulted), and creates no second registry entry. -/
theorem resolve_idempotent (importOk importOk2 : Int → List (Nat × Int) → Bool)
    (swapOk swapOk2 : Bool) (s s1 : EglState) (fd : Int) (size size2 : Nat)
    (info info2 : StreamInfo) (rel : Option Int) (logs : List String) (imp : Bool)
    (hfd : 0 ≤ fd)
    (h1 : Show importOk swapOk s fd size info = Except.ok (s1, rel, logs, imp)) :
    Show importOk2 swapOk2 s1 fd size2 info2 =
      Except.ok (s1, some fd, ([] : List String), false) := by
  obtain ⟨b, hb, hbfd⟩ := Show_ok_entry hfd h1
  obtain ⟨hlast, -⟩ := Show_ok_spec h1
  simp only at hb hbfd hlast
  obtain ⟨bufs, lfd, ft, w, hgt, op, ot, nt⟩ := s1
  simp only at hb hlast
  subst hlast
  rw [Show_cached hb hbfd importOk2 swapOk2 size2 info2]
  simp [hfd]

/-- Witness for C2: after first showing fd 7, a second `Show` of 7 (with
an always-failing oracle and different size/geometry) is a pure cache
hit: unchanged state, no import, and 7 itself is the handle released. -/
theorem resolve_idempotent_witness :
    (0 : Int) ≤ 7 ∧
    Show (fun _ _ => false) false (afterOne 7) 7 50
        { width := 320, height := 240, stride := 320, colour_space := none } =
      Except.ok (afterOne 7, some 7, ([] : List String), false) :=
  ⟨by decide,
   resolve_idempotent (fun _ _ => true) (fun _ _ => false) true false
     (initState 1024 768) (afterOne 7) 7 100 50 info640
     { width := 320, height := 240, stride := 320, colour_space := none }
     none [] true (by decide) (by rfl)⟩

/-- Claim C3: postconditions of `Reset`. After `Reset` the registry is
empty, the pending-release slot is empty (`last_fd = -1`) and no release
report is emitted for the handle it held, and the pipeline is back in
the Uninitialized state (`first_time = true`); consequently, presenting
any fd afterwards behaves as a first-time import whenever the import
call succeeds: a fresh entry bound to a fresh texture is created, the
call reports an import (last component `true`), and no release fires. -/
theorem reset_postconditions (importOk : Int → List (Nat × Int) → Bool) (swapOk : Bool)
    (s : EglState) (fd : Int) (size : Nat) (info : StreamInfo)
    (himp : importOk fd (importAttribs fd info) = true) :
    (Reset s).1.buffers = [] ∧ (Reset s).1.last_fd = -1 ∧
    (Reset s).1.first_time = true ∧ (Reset s).2 = [] ∧
    ∃ s1 logs, Show importOk swapOk (Reset s).1 fd size info =
        Except.ok (s1, none, logs, true) ∧
      lookupBuffer s1.buffers fd =
        some { fd := fd, size := size, info := info, texture := s.next_texture } := by
  refine ⟨rfl, rfl, rfl, rfl, ?_⟩
  have hlk : lookupBuffer (Reset s).1.buffers fd = none := rfl
  rw [Show_new hlk importOk swapOk size info]
  rw [showImport_ok swapOk _ size himp]
  exact ⟨_, _, rfl, by rw [lookupBuffer_insertBuffer_self, firstTimeSetup_next_texture]; rfl⟩

/-- Witness for C3: resetting the three-buffer state and then showing
fd 9 re-imports it from scratch. -/
theorem reset_postconditions_witness :
    (Reset afterOneTwoThree).1.buffers = [] ∧
    (Reset afterOneTwoThree).1.last_fd = -1 ∧
    (Reset afterOneTwoThree).1.first_time = true ∧
    (Reset afterOneTwoThree).2 = [] ∧
    ∃ s1 logs, Show (fun _ _ => true) true (Reset afterOneTwoThree).1 9 100 info640 =
        Except.ok (s1, none, logs, true) ∧
      lookupBuffer s1.buffers 9 =
        some { fd := 9, size := 100, info := info640, texture := afterOneTwoThree.next_texture } :=
  reset_postconditions (fun _ _ => true) true afterOneTwoThree 9 100 info640 (by decide)

/-- Claim C4: colour-space mapping. For every colour space, the
(encoding, range) pair computed by `get_colour_space_info` is given by
the fixed table: `Sycc` maps to (BT.601, full range), `Rec709` maps to
(BT.709, narrow range), and everything else - the unspecified colour
space (`none`), `Smpte170m`, and any other value - maps to the default
(BT.601, narrow range). -/
theorem colour_space_table (cs : Option ColorSpace) :
    ((get_colour_space_info cs).1, (get_colour_space_info cs).2.1) =
      if cs = some ColorSpace.Sycc then (EGL_ITU_REC601_EXT, EGL_YUV_FULL_RANGE_EXT)
      else if cs = some ColorSpace.Rec709 then
        (EGL_ITU_REC709_EXT, EGL_YUV_NARROW_RANGE_EXT)
      else (EGL_ITU_REC601_EXT, EGL_YUV_NARROW_RANGE_EXT) := by
  rcases cs with _ | c
  · rfl
  · cases c <;> rfl

/-- Claim C5: aspect-fit transform. For every positive frame size
(W, H) and output-surface size (Wo, Ho), the vertex scale factors
computed by `gl_setup` satisfy: their maximum is 1 (the larger axis
spans the full output dimension), their ratio equals the ratio of the
per-axis scale ratios (aspect preserved, no stretch), and the video
quad is centred (its vertices sum to the origin coordinate-wise). -/
theorem gl_setup_aspect_fit (W H Wo Ho : ℚ)
    (hW : 0 < W) (hH : 0 < H) (hWo : 0 < Wo) (hHo : 0 < Ho) :
    max (gl_setup_factors W H Wo Ho).1 (gl_setup_factors W H Wo Ho).2 = 1 ∧
    (gl_setup_factors W H Wo Ho).1 / (gl_setup_factors W H Wo Ho).2 =
      (W / Wo) / (H / Ho) ∧
    ((gl_setup_verts (gl_setup_factors W H Wo Ho).1
        (gl_setup_factors W H Wo Ho).2).map Prod.fst).sum = 0 ∧
    ((gl_setup_verts (gl_setup_factors W H Wo Ho).1
        (gl_setup_factors W H Wo Ho).2).map Prod.snd).sum = 0 := by
  have hwf : 0 < W / Wo := div_pos hW hWo
  have hhf : 0 < H / Ho := div_pos hH hHo
  have hm : 0 < max (W / Wo) (H / Ho) := lt_max_of_lt_left hwf
  have hm0 : max (W / Wo) (H / Ho) ≠ 0 := ne_of_gt hm
  have hhf0 : H / Ho ≠ 0 := ne_of_gt hhf
  have hfac : gl_setup_factors W H Wo Ho =
      (W / Wo / max (W / Wo) (H / Ho), H / Ho / max (W / Wo) (H / Ho)) := rfl
  rw [hfac]
  refine ⟨?_, ?_, ?_, ?_⟩
  · rw [max_div_div_right hm.le]
    exact div_self hm0
  · dsimp only
    rw [div_div_div_eq, mul_comm (max (W / Wo) (H / Ho)) (H / Ho),
      mul_div_mul_right _ _ hm0]
  · simp [gl_setup_verts]
  · simp [gl_setup_verts]

/-- Witness for C5: a 640 by 480 frame in a 1024 by 768 window; both
scale ratios are 5/8, so after normalization the larger factor is 1. -/
theorem gl_setup_aspect_fit_witness :
    max (gl_setup_factors 640 480 1024 768).1 (gl_setup_factors 640 480 1024 768).2 = 1 :=
  (gl_setup_aspect_fit 640 480 1024 768 (by norm_num) (by norm_num) (by norm_num)
    (by norm_num)).1

theorem toEGLint_of_lt {n : Nat} (h : n < 2 ^ 31) : toEGLint n = (n : Int) := by
  unfold toEGLint
  have h32 : n % 2 ^ 32 = n := Nat.mod_eq_of_lt (by omega)
  rw [h32, if_pos h]

/-- Claim C6: 3-plane 4:2:0 import layout. For every import of a handle
`fd` with stride `s` and height `h` (within the 32-bit signed range),
the attribute list passed to the import call references the same fd in
all three plane descriptors, with plane 0 at byte offset 0 and pitch
`s`, plane 1 at offset `s*h` with pitch `s/2`, and plane 2 at offset
`s*h + (s/2)*(h/2)` with pitch `s/2` (integer division). -/
theorem plane_layout (fd : Int) (info : StreamInfo) (encoding range : Nat)
    (hs : info.stride < 2 ^ 31)
    (htot : info.stride * info.height + (info.stride / 2) * (info.height / 2) < 2 ^ 31) :
    attribValue (makeBufferAttribs fd info encoding range) EGL_DMA_BUF_PLANE0_FD_EXT
        = some fd ∧
    attribValue (makeBufferAttribs fd info encoding range) EGL_DMA_BUF_PLANE1_FD_EXT
        = some fd ∧
    attribValue (makeBufferAttribs fd info encoding range) EGL_DMA_BUF_PLANE2_FD_EXT
        = some fd ∧
    attribValue (makeBufferAttribs fd info encoding range) EGL_DMA_BUF_PLANE0_OFFSET_EXT
        = some 0 ∧
    attribValue (makeBufferAttribs fd info encoding range) EGL_DMA_BUF_PLANE0_PITCH_EXT
        = some (info.stride : Int) ∧
    attribValue (makeBufferAttribs fd info encoding range) EGL_DMA_BUF_PLANE1_OFFSET_EXT
        = some ((info.stride * info.height : Nat) : Int) ∧
    attribValue (makeBufferAttribs fd info encoding range) EGL_DMA_BUF_PLANE1_PITCH_EXT
        = some ((info.stride / 2 : Nat) : Int) ∧
    attribValue (makeBufferAttribs fd info encoding range) EGL_DMA_BUF_PLANE2_OFFSET_EXT
        = some ((info.stride * info.height + (info.stride / 2) * (info.height / 2) : Nat) : Int) ∧
    attribValue (makeBufferAttribs fd info encoding range) EGL_DMA_BUF_PLANE2_PITCH_EXT
        = some ((info.stride / 2 : Nat) : Int) := by
  have hhalf : info.stride / 2 < 2 ^ 31 := lt_of_le_of_lt (Nat.div_le_self _ _) hs
  have hlum : info.stride * info.height < 2 ^ 31 := lt_of_le_of_lt (Nat.le_add_right _ _) htot
  refine ⟨?_, ?_, ?_, ?_, ?_, ?_, ?_, ?_, ?_⟩ <;>
    simp [attribValue, makeBufferAttribs, toEGLint_of_lt hs, toEGLint_of_lt hhalf,
      toEGLint_of_lt hlum, toEGLint_of_lt htot, EGL_HEIGHT, EGL_WIDTH,
      EGL_LINUX_DRM_FOURCC_EXT, EGL_DMA_BUF_PLANE0_FD_EXT, EGL_DMA_BUF_PLANE0_OFFSET_EXT,
      EGL_DMA_BUF_PLANE0_PITCH_EXT, EGL_DMA_BUF_PLANE1_FD_EXT, EGL_DMA_BUF_PLANE1_OFFSET_EXT,
      EGL_DMA_BUF_PLANE1_PITCH_EXT, EGL_DMA_BUF_PLANE2_FD_EXT, EGL_DMA_BUF_PLANE2_OFFSET_EXT,
      EGL_DMA_BUF_PLANE2_PITCH_EXT, EGL_YUV_COLOR_SPACE_HINT_EXT, EGL_SAMPLE_RANGE_HINT_EXT]

/-- Witness for C6: the 640 by 480 stream with stride 640 places plane 1
at offset 640 * 480 = 307200. -/
theorem plane_layout_witness :
    attribValue (makeBufferAttribs 7 info640 EGL_ITU_REC601_EXT EGL_YUV_NARROW_RANGE_EXT)
      EGL_DMA_BUF_PLANE1_OFFSET_EXT = some ((info640.stride * info640.height : Nat) : Int) :=
  (plane_layout 7 info640 EGL_ITU_REC601_EXT EGL_YUV_NARROW_RANGE_EXT (by decide)
    (by decide)).2.2.2.2.2.1

/-- Claim C7: import failure handling. A `Show` call raises the error
`"failed to import fd <fd>"` if and only if the registry requires
an import for the fd (no live entry) and the import call fails; no other
error is ever raised - so the failure surfaces synchronously as the
result of the call itself, with no internal retry. -/
theorem show_import_failure (importOk : Int → List (Nat × Int) → Bool) (swapOk : Bool)
    (s : EglState) (fd : Int) (size : Nat) (info : StreamInfo) :
    (Show importOk swapOk s fd size info =
        Except.error ("failed to import fd " ++ toString fd) ↔
      needsImport s fd ∧ importOk fd (importAttribs fd info) = false) ∧
    ∀ e, Show importOk swapOk s fd size info = Except.error e →
      e = "failed to import fd " ++ toString fd := by
  rcases heq : lookupBuffer s.buffers fd with _ | b
  · have hni : needsImport s fd := by unfold needsImport; rw [heq]; rfl
    rw [Show_new heq importOk swapOk size info]
    by_cases hi : importOk fd (importAttribs fd info) = true
    · rw [showImport_ok swapOk _ size hi]
      refine ⟨⟨(fun h => by cases h), fun hand => ?_⟩, (fun e h => by cases h)⟩
      rw [hi] at hand
      cases hand.2
    · have hi2 : importOk fd (importAttribs fd info) = false := by simpa using hi
      rw [showImport_error swapOk _ size hi2]
      refine ⟨⟨fun _ => ⟨hni, hi2⟩, fun _ => rfl⟩, fun e h => ?_⟩
      injection h with h
      exact h.symm
  · have hgd : (lookupBuffer s.buffers fd).getD {} = b := by rw [heq]; rfl
    by_cases hbfd : b.fd = -1
    · have hni : needsImport s fd := by unfold needsImport; rw [hgd]; exact hbfd
      rw [Show_dead heq hbfd importOk swapOk size info]
      by_cases hi : importOk fd (importAttribs fd info) = true
      · rw [showImport_ok swapOk _ size hi]
        refine ⟨⟨(fun h => by cases h), fun hand => ?_⟩, (fun e h => by cases h)⟩
        rw [hi] at hand
        cases hand.2
      · have hi2 : importOk fd (importAttribs fd info) = false := by simpa using hi
        rw [showImport_error swapOk _ size hi2]
        refine ⟨⟨fun _ => ⟨hni, hi2⟩, fun _ => rfl⟩, fun e h => ?_⟩
        injection h with h
        exact h.symm
    · have hni : ¬needsImport s fd := by unfold needsImport; rw [hgd]; exact hbfd
      rw [Show_cached heq hbfd importOk swapOk size info]
      exact ⟨⟨(fun h => by cases h), fun hand => absurd hand.1 hni⟩, (fun e h => by cases h)⟩

/-- Witness for C7: with an always-failing import oracle, showing the
unseen fd 5 raises exactly the import error naming fd 5. -/
theorem show_import_failure_witness :
    Show (fun _ _ => false) true (initState 1024 768) 5 100 info640 =
      Except.error ("failed to import fd " ++ toString (5 : Int)) :=
  (show_import_failure (fun _ _ => false) true (initState 1024 768) 5 100 info640).1.mpr
    ⟨rfl, rfl⟩

/-- Counterexample to claim C8 as stated: the claim requires a failed
surface swap to be "logged as a non-fatal condition", but `Show`
discards the swap result without emitting any log line. Here the swap
fails (`swapOk = false`) with a frame pending in the release slot: the
call still succeeds, the release protocol proceeds (fd 2 is reported
free and fd 3 is stored in the slot), yet the log-line component of the
result is `[]`, and no decomposition of this call's result has a
non-empty log - refuting "the failure is logged". -/
theorem show_swap_failure_not_logged :
    Show (fun _ _ => true) false pendingTwoState 3 100 info640 =
      Except.ok (afterOne 3, some 2, ([] : List String), true) ∧
    ¬∃ s1 rel imp, ∃ logs : List String, logs ≠ [] ∧
        Show (fun _ _ => true) false pendingTwoState 3 100 info640 =
          Except.ok (s1, rel, logs, imp) := by
  have h : Show (fun _ _ => true) false pendingTwoState 3 100 info640 =
      Except.ok (afterOne 3, some 2, ([] : List String), true) := by rfl
  refine ⟨h, ?_⟩
  rintro ⟨s1, rel, imp, logs, hne, heq⟩
  rw [h] at heq
  injection heq with heq
  exact hne (congrArg (fun t => t.2.2.1) heq).symm

/-- Claim C8 amended: a failed surface swap/present call is silently
ignored - the swap result is discarded without logging - and the
release protocol still proceeds exactly as on a successful swap: the
result of `Show` (state, release report, log lines, import flag) does
not depend on the swap outcome at all, so the previous handle is still
reported free and the just-presented handle is still stored in the
slot. -/
theorem show_swap_result_ignored (importOk : Int → List (Nat × Int) → Bool)
    (swapOk1 swapOk2 : Bool) (s : EglState) (fd : Int) (size : Nat) (info : StreamInfo) :
    Show importOk swapOk1 s fd size info = Show importOk swapOk2 s fd size info := by
  have hsi : ∀ s0 : EglState, showImport importOk swapOk1 s0 fd size info =
      showImport importOk swapOk2 s0 fd size info := by
    intro s0
    unfold showImport
    rcases h : makeBuffer importOk fd size info s0 with e | ⟨s1, buf, logs⟩ <;> simp [h]
  rcases heq : lookupBuffer s.buffers fd with _ | b
  · rw [Show_new heq importOk swapOk1 size info, Show_new heq importOk swapOk2 size info]
    exact hsi _
  · by_cases hbfd : b.fd = -1
    · rw [Show_dead heq hbfd importOk swapOk1 size info,
        Show_dead heq hbfd importOk swapOk2 size info]
      exact hsi _
    · rw [Show_cached heq hbfd importOk swapOk1 size info,
        Show_cached heq hbfd importOk swapOk2 size info]

/-- Counterexample to claim C9 as stated: the overlay texture is
allocated at one quarter of the preview-window dimensions, not of the
frame dimensions. A 640 by 480 frame shown in a 1024 by 768 window
allocates a 256 by 192 overlay, whereas the claim predicts
640 / 4 = 160 by 480 / 4 = 120. -/
theorem overlay_quarter_frame_cex :
    (Show (fun _ _ => true) true (initState 1024 768) 1 100 info640).map
        (fun r => (r.1.overlay_tex.w, r.1.overlay_tex.h)) =
      Except.ok ((256 : Nat), (192 : Nat)) ∧
    ((256 : Nat), (192 : Nat)) ≠ (info640.width / 4, info640.height / 4) :=
  ⟨rfl, by decide⟩

/-- Claim C9 amended: at the one-time setup performed on the first
`Show` call, the overlay texture is allocated at one quarter of the
preview-window dimensions (width = window width / 4, height = window
height / 4, integer division) - not the frame dimensions. -/
theorem overlay_default_window_quarter (importOk : Int → List (Nat × Int) → Bool)
    (swapOk : Bool) (s : EglState) (fd : Int) (size : Nat) (info : StreamInfo)
    (out : EglState × Option Int × List String × Bool)
    (hbuf : s.buffers = [])
    (hfirst : s.first_time = true)
    (hok : Show importOk swapOk s fd size info = Except.ok out) :
    out.1.overlay_tex.w = s.width / 4 ∧ out.1.overlay_tex.h = s.height / 4 := by
  have hlk : lookupBuffer s.buffers fd = none := by rw [hbuf]; rfl
  rw [Show_new hlk importOk swapOk size info] at hok
  by_cases hi : importOk fd (importAttribs fd info) = true
  · rw [showImport_ok swapOk _ size hi] at hok
    injection hok with hok
    have ho := firstTimeSetup_overlay_of_first info
      { s with buffers := insertBuffer s.buffers fd {} } hfirst
    rw [← hok]
    dsimp only
    rw [ho]
    exact ⟨rfl, rfl⟩
  · rw [showImport_error swapOk _ size (by simpa using hi)] at hok
    cases hok

/-- Witness for the amended C9: from the fresh 1024 by 768 window, the
first `Show` allocates a 256 by 192 overlay texture. -/
theorem overlay_default_window_quarter_witness :
    (afterOne 1).overlay_tex.w = (initState 1024 768).width / 4 ∧
    (afterOne 1).overlay_tex.h = (initState 1024 768).height / 4 :=
  overlay_default_window_quarter (fun _ _ => true) true (initState 1024 768) 1 100 info640
    (afterOne 1, none, [], true) rfl rfl (by rfl)

/-- Claim C10: `SetOverlay` with a null buffer, in any state, only
clears the overlay presence flag: the width/height arguments are
ignored (any two calls with different dimensions produce the same
state), the registry, the pending-release slot and the overlay
texture's dimensions and contents are untouched, and - being a total
function with no error outcome - the clearing call can never fail. A
later non-null `SetOverlay` restores compositing with the freshly
supplied content and dimensions. -/
theorem setOverlay_none_clears_only (s : EglState) (w h w2 h2 : Nat) (buf : List Nat) :
    SetOverlay s none w h = { s with overlay_present := false } ∧
    SetOverlay s none w h = SetOverlay s none w2 h2 ∧
    (SetOverlay s none w h).buffers = s.buffers ∧
    (SetOverlay s none w h).last_fd = s.last_fd ∧
    (SetOverlay s none w h).overlay_tex = s.overlay_tex ∧
    SetOverlay (SetOverlay s none w h) (some buf) w2 h2 =
      { s with overlay_tex := { w := w2, h := h2, content := some buf },
               overlay_present := true } :=
  ⟨rfl, rfl, rfl, rfl, rfl, rfl⟩

end Egl
